import Mathlib

/-!
Verification development for the `livereload_server` package
(`src/livereload_server/__init__.py` and `__main__.py`).

The embedding below translates the pure/sequential content of the server
into Lean definitions:

* byte strings become `List Nat` (one `Nat` per byte value);
* the chunked streaming loop of `_stream_file_with_replacement`
  (lines 144-167) becomes a structural recursion over the list of chunks
  the file reads produce, accumulating the bytes written to the response;
* the websocket registry (a Python `WeakSet`) becomes a `Finset Nat` of
  connection identifiers, with the `remove` operation modelled with its
  real semantics (raising `KeyError` on an absent member);
* the message handler `_on_websocket_client_message` (lines 213-244)
  becomes a function into `Except`, where `Except.error` stands for an
  uncaught Python exception propagating out of the handler;
* the per-connection loop `_get_livereload_socket` (lines 183-211)
  becomes a recursion over the incoming message list, with the
  `try/finally` teardown applied at the end;
* the static-file resolution `_get_static_file` (lines 97-114) becomes a
  function over an abstract filesystem given by `isDir`/`isFile`
  predicates on path strings.
-/

set_option maxRecDepth 20000

namespace Livereload

/-- Bytes of a (pure-ASCII) Python byte-string literal, one `Nat` per byte. -/
def bytes (s : String) : List Nat :=
  s.toList.map Char.toNat

/-- The byte string `b"</head>"` (line 151). -/
def markerHead : List Nat := bytes ("</head>")

/-- The byte string `b"</body>"` (line 151). -/
def markerBody : List Nat := bytes ("</body>")

/-- Index of the first occurrence of `sep` as a contiguous substring,
mirroring Python `bytes.find`. -/
def findSub (sep : List Nat) : List Nat → Option Nat
  | [] => if sep.isEmpty then some 0 else none
  | a :: rest =>
    if sep.isPrefixOf (a :: rest) then some 0
    else (findSub sep rest).map (· + 1)

/-- Python `sep in s` for byte strings: contiguous-substring containment. -/
def hasSub (sep s : List Nat) : Bool :=
  (findSub sep s).isSome

/-- Python `s.partition(sep)` for byte strings: split at the first
occurrence of `sep`, or `(s, b"", b"")` when `sep` does not occur
(line 153). -/
def bytesPartition (s sep : List Nat) : List Nat × List Nat × List Nat :=
  match findSub sep s with
  | some i => (s.take i, sep, s.drop (i + sep.length))
  | none => (s, [], [])

/-- The carry-over kept for the next loop iteration: the source computes
`end_of_last_chunk = chunk[:-8]` (line 163), i.e. everything EXCEPT the
last 8 bytes of the chunk (empty when the chunk has at most 8 bytes). -/
def endOfLastChunk (chunk : List Nat) : List Nat :=
  chunk.take (chunk.length - 8)

/-- The `while chunk:` loop of `_stream_file_with_replacement`
(lines 146-164) plus the end-of-file payload append (lines 166-167).

State threaded through the loop: `wrote` is `wrote_injected_script`,
`carry` is `end_of_last_chunk`. The returned list is the concatenation of
all bytes passed to `writer.write`, in order. The loop body is translated
branch for branch:

* `if not wrote_injected_script:` — build `search_space` and, when one of
  the two markers occurs in it, write
  `before ++ payload ++ head_tag ++ after` where the split is
  `chunk.partition(b"</head>")`; when no marker occurs in the search
  space, the body writes NOTHING for this chunk (the `else` on line 160
  is attached to the outer `if` on line 149);
* `else:` — write the chunk unchanged;
* after the loop, when `wrote_injected_script` is still false, the
  payload is written once (lines 166-167).

An empty chunk read ends the `while` loop, so recursion also stops at an
empty chunk. -/
def streamLoop (payload : List Nat) :
    List (List Nat) → Bool → List Nat → List Nat
  | [], wrote, _carry =>
    if wrote then [] else payload
  | chunk :: rest, wrote, carry =>
    if chunk.isEmpty then
      if wrote then [] else payload
    else if !wrote then
      let searchSpace := carry ++ chunk
      if hasSub markerHead searchSpace || hasSub markerBody searchSpace then
        let parts := bytesPartition chunk markerHead
        parts.1 ++ payload ++ parts.2.1 ++ parts.2.2 ++
          streamLoop payload rest true (endOfLastChunk chunk)
      else
        streamLoop payload rest false (endOfLastChunk chunk)
    else
      chunk ++ streamLoop payload rest true (endOfLastChunk chunk)

/-- `_stream_file_with_replacement` on an HTML file delivered as the given
list of chunks: the loop starts with `wrote_injected_script = False` and
`end_of_last_chunk = b""` (lines 144-146). -/
def streamFileWithReplacement (payload : List Nat) (chunks : List (List Nat)) :
    List Nat :=
  streamLoop payload chunks false []

/-- `self._script_to_inject` (lines 48-57): only the `var port={port};`
fragment is an f-string, so the doubled braces in the surrounding plain
string fragments are literal characters. -/
def scriptToInject (port : Nat) : String :=
  "<script type=\"text/javascript\">" ++
  "(function()\x7b\x7b" ++
  "var s=document.createElement(\"script\");" ++
  "var port=" ++ toString port ++ ";" ++
  "s.src=\"//\"+window.location.hostname+\":\"+port+\"/livereload.js?port=\"+port;" ++
  "document.head.appendChild(s);" ++
  "\x7d\x7d)();" ++
  "</script>"

/-- The injected payload bytes, UTF-8 encoded (line 156; the port is 8000,
the value `__main__.py` line 17 passes). The script is pure ASCII, so the
encoding is the identity on code points. -/
def injectionPayload : List Nat :=
  bytes (scriptToInject 8000)

/-- C1: claimed — for an HTML file containing a marker exactly once and any
chunking, the output holds the payload exactly once, immediately before the
first marker, with every other byte of the file preserved in order. The
code violates this: the chunk-writing `else` branch is attached to the
injection `if`, so a chunk examined without finding a marker is never
written. On the file `XYZ</head>W` chunked as `[XY, Z</head>W]` the code
emits `Z ++ payload ++ </head> ++ W`, silently dropping the bytes `XY`. -/
theorem c1_pre_marker_chunk_dropped :
    streamFileWithReplacement injectionPayload
        [bytes ("XY"), bytes ("Z</head>W")] =
      bytes ("Z") ++ injectionPayload ++ bytes ("</head>") ++ bytes ("W") ∧
    streamFileWithReplacement injectionPayload
        [bytes ("XY"), bytes ("Z</head>W")] ≠
      bytes ("XYZ") ++ injectionPayload ++ bytes ("</head>") ++ bytes ("W") := by
  constructor
  · decide
  · decide

/-- C2: claimed — a marker split across a chunk boundary is still detected
and the payload is injected exactly once at the marker. The code violates
this: the carry-over is `chunk[:-8]` (the chunk WITHOUT its last 8 bytes)
rather than the chunk's trailing bytes, so on chunks `[X</hea, d>Y]` no
search space ever contains `</head>`; both chunks are furthermore dropped
by the missing write branch and the output is the bare payload. -/
theorem c2_split_marker_missed :
    streamFileWithReplacement injectionPayload
        [bytes ("X</hea"), bytes ("d>Y")] = injectionPayload ∧
    streamFileWithReplacement injectionPayload
        [bytes ("X</hea"), bytes ("d>Y")] ≠
      bytes ("X") ++ injectionPayload ++ bytes ("</head>Y") := by
  constructor
  · decide
  · decide

/-- C3: claimed — the carry-over kept after each chunk is the trailing
`K - 1 = 6` bytes of that chunk. The code instead keeps `chunk[:-8]`:
every byte EXCEPT the trailing 8. On the 9-byte chunk `ABCDEFGHI` the
code keeps `A`, while the trailing 6 bytes are `DEFGHI`; the kept buffer
does not even contain the chunk's last byte. -/
theorem c3_carry_over_is_not_tail :
    endOfLastChunk (bytes ("ABCDEFGHI")) = bytes ("A") ∧
    endOfLastChunk (bytes ("ABCDEFGHI")) ≠
      (bytes ("ABCDEFGHI")).drop ((bytes ("ABCDEFGHI")).length - 6) := by
  constructor
  · decide
  · decide

/-- C5: claimed — the payload is written exactly once, and for a file with
no marker the output is the original bytes followed by the payload. The
code writes the payload exactly once, but drops every chunk in which no
marker was found: on the marker-free file `hello` the output is the bare
payload with the file's bytes missing. -/
theorem c5_marker_free_file_dropped :
    streamFileWithReplacement injectionPayload [bytes ("hello")] =
      injectionPayload ∧
    streamFileWithReplacement injectionPayload [bytes ("hello")] ≠
      bytes ("hello") ++ injectionPayload := by
  constructor
  · decide
  · decide

/-- The reload notification payload
`{"command": "reload", "path": path, "liveCSS": True}` (line 67). -/
structure ReloadMsg where
  command : String
  path : String
  liveCSS : Bool
deriving DecidableEq

/-- The dictionary `reload` sends to each client (lines 66-68). -/
def reloadMessage (path : String) : ReloadMsg :=
  ⟨"reload", path, true⟩

/-- `reload` (lines 62-68): iterate the registered websockets in order and
`await websocket.send_json(...)` for each. There is no `try`/`except`
around the send, so the first failing send raises out of the `for` loop
and out of `reload` itself. Clients are identified by `Nat`; `sendOk`
says whether `send_json` succeeds for a client; the result is the list of
(client, message) pairs actually delivered, paired with the client whose
send raised (`none` when every send succeeded). -/
def reload (sendOk : Nat → Bool) (path : String) :
    List Nat → List (Nat × ReloadMsg) × Option Nat
  | [] => ([], none)
  | ws :: rest =>
    if sendOk ws then
      let r := reload sendOk path rest
      ((ws, reloadMessage path) :: r.1, r.2)
    else
      ([], some ws)

/-- A send behaviour in which exactly client `0` fails. -/
def sendFailsForClient0 : Nat → Bool := fun ws => ws != 0

/-- C4, counterexample: with clients `[0, 1]` registered and the send to
client `0` failing, `reload` delivers the notification to NO client (in
particular not to client `1`) and the failure propagates to the caller,
so a send failure for one client is not isolated. -/
theorem c4_counterexample_broadcast_aborts :
    reload sendFailsForClient0 "*" [0, 1] = ([], some 0) := by
  decide

/-- C4, amended: a send failure for one client aborts the broadcast — the
clients iterated before the failing one have received the notification,
the failing client's exception propagates to the caller of `reload`, and
no client after the failing one receives anything. -/
theorem c4_send_failure_aborts_broadcast (sendOk : Nat → Bool) (path : String)
    (pre : List Nat) (c : Nat) (post : List Nat)
    (hpre : ∀ x ∈ pre, sendOk x = true) (hc : sendOk c = false) :
    reload sendOk path (pre ++ c :: post) =
      (pre.map fun x => (x, reloadMessage path), some c) := by
  induction pre with
  | nil => simp [reload, hc]
  | cons a tl ih =>
    have ha : sendOk a = true := hpre a (by simp)
    have htl : ∀ x ∈ tl, sendOk x = true := fun x hx => hpre x (by simp [hx])
    simp [reload, ha, ih htl]

/-- C4, witness: the amended theorem applied to clients `[5, 0, 7]` where
only client `0` fails. -/
theorem c4_send_failure_aborts_broadcast_witness :
    (∀ x ∈ [5], sendFailsForClient0 x = true) ∧
    sendFailsForClient0 0 = false ∧
    reload sendFailsForClient0 "*" ([5] ++ 0 :: [7]) =
      ([(5, reloadMessage "*")], some 0) :=
  ⟨by decide, by decide,
    c4_send_failure_aborts_broadcast sendFailsForClient0 "*" [5] 0 [7]
      (by decide) (by decide)⟩

/-- `self._open_websockets.remove(ws)` (lines 198, 201): Python's
`WeakSet.remove` raises `KeyError` when the element is absent;
`Except.error` stands for that exception. -/
def weakSetRemove (s : Finset Nat) (ws : Nat) : Except Unit (Finset Nat) :=
  if ws ∈ s then .ok (s.erase ws) else .error ()

/-- The guarded removal of the `finally` block (lines 206-207):
`if ws in self._open_websockets: self._open_websockets.remove(ws)`. -/
def finallyRemoveIfPresent (s : Finset Nat) (ws : Nat) : Finset Nat :=
  if ws ∈ s then s.erase ws else s

/-- C6, counterexample: removing a client from an empty registry through
the registry's `remove` operation (as invoked on the close/error message
branches, lines 198 and 201) raises `KeyError` instead of being a no-op,
so registry removal as used by the code is not idempotent. -/
theorem c6_counterexample_remove_absent_raises :
    weakSetRemove (∅ : Finset Nat) 0 = .error () := by
  simp [weakSetRemove]

/-- C6, amended: the guarded removal of the teardown `finally` block is
idempotent and never raises — after it the registry does not contain the
client, applying it twice equals applying it once, and on an absent
client it is a no-op — whereas the unguarded `WeakSet.remove` used on the
close/error message branches raises `KeyError` when the client is
absent. -/
theorem c6_guarded_removal_idempotent (s : Finset Nat) (ws : Nat) :
    ws ∉ finallyRemoveIfPresent s ws ∧
    finallyRemoveIfPresent (finallyRemoveIfPresent s ws) ws =
      finallyRemoveIfPresent s ws ∧
    (ws ∉ s → finallyRemoveIfPresent s ws = s ∧
      weakSetRemove s ws = .error ()) := by
  refine ⟨?_, ?_, fun h => ⟨?_, ?_⟩⟩
  · by_cases h : ws ∈ s <;> simp [finallyRemoveIfPresent, h]
  · by_cases h : ws ∈ s <;>
      simp [finallyRemoveIfPresent, h, Finset.not_mem_erase]
  · simp [finallyRemoveIfPresent, h]
  · simp [weakSetRemove, h]

/-- C6, witness: the amended theorem at the empty registry and client `0`,
with the absence hypothesis discharged concretely. -/
theorem c6_guarded_removal_idempotent_witness :
    (0 ∉ (∅ : Finset Nat)) ∧
    (finallyRemoveIfPresent (∅ : Finset Nat) 0 = ∅ ∧
      weakSetRemove (∅ : Finset Nat) 0 = .error ()) :=
  ⟨by decide, (c6_guarded_removal_idempotent ∅ 0).2.2 (by decide)⟩

/-- JSON values, as produced by `message.json()` (i.e. `json.loads`).
Numbers are irrelevant to every code path modelled here and are kept as
integers. -/
inductive Json where
  | jnull : Json
  | jbool (b : Bool) : Json
  | jnum (n : Int) : Json
  | jstr (s : String) : Json
  | jarr (xs : List Json) : Json
  | jobj (fields : List (String × Json)) : Json

/-- Lookup in a decoded JSON object; `json.loads` keeps the LAST value
for a duplicated object key, so later bindings shadow earlier ones. -/
def dictLookup (fields : List (String × Json)) (k : String) : Option Json :=
  match fields with
  | [] => none
  | (k2, v) :: rest =>
    match dictLookup rest k with
    | some v2 => some v2
    | none => if k2 = k then some v else none

/-- Python `data[k]` (line 228): yields the value when `data` is an object
containing key `k`; otherwise (`KeyError` on a missing key, `TypeError`
on a non-object) the subscript raises, modelled as `none`. -/
def dictGetItem (data : Json) (k : String) : Option Json :=
  match data with
  | .jobj fields => dictLookup fields k
  | _ => none

/-- Python `value == "s"` for a decoded JSON value: true exactly when the
value is that string (lines 229, 237). -/
def jsonEqStr (j : Json) (s : String) : Bool :=
  match j with
  | .jstr t => t = s
  | _ => false

/-- A text websocket message as seen by `_on_websocket_client_message`:
either `message.json()` raises `JSONDecodeError` on the raw payload, or
it returns a decoded JSON value (lines 219-226). -/
inductive ClientMsg where
  | nonJsonPayload (raw : String) : ClientMsg
  | jsonPayload (data : Json) : ClientMsg

/-- `SUPPORTED_PROTOCOL` (line 24). -/
def SUPPORTED_PROTOCOL : String := "http://livereload.com/protocols/official-7"

/-- The `hello` acknowledgement dictionary sent on lines 230-236. -/
structure HelloResponse where
  command : String
  protocols : List String
  serverName : String
deriving DecidableEq

/-- The concrete acknowledgement
`{"command": "hello", "protocols": [SUPPORTED_PROTOCOL],
"serverName": "python-livereload_server"}`. -/
def helloResponse : HelloResponse :=
  ⟨"hello", [SUPPORTED_PROTOCOL], "python-livereload_server"⟩

/-- Observable effects of one run of `_on_websocket_client_message`. -/
inductive HandlerEffect where
  | loggedNonJson (raw : String) : HandlerEffect
  | sentHello (ack : HelloResponse) : HandlerEffect
  | loggedInfo (url : Json) : HandlerEffect
  | loggedUnknownCommand (command : Json) : HandlerEffect

/-- `_on_websocket_client_message` (lines 213-244), effect for effect:

* a payload that fails JSON decoding is logged and the handler returns
  (lines 219-226) — nothing is sent, nothing raises;
* `command = data["command"]` (line 228) raises an uncaught `KeyError` or
  `TypeError` when `data` is not an object with that key (`Except.error`);
* `command == "hello"` sends exactly the acknowledgement (lines 229-236);
* `command == "info"` logs `data.get("url", "<no URL data>")`
  (lines 237-239);
* any other command is logged as a warning (lines 240-244). -/
def onWebsocketClientMessage (msg : ClientMsg) :
    Except Unit (List HandlerEffect) :=
  match msg with
  | .nonJsonPayload raw => .ok [.loggedNonJson raw]
  | .jsonPayload data =>
    match dictGetItem data ("command") with
    | none => .error ()
    | some command =>
      if jsonEqStr command ("hello") then
        .ok [.sentHello helloResponse]
      else if jsonEqStr command ("info") then
        .ok [.loggedInfo (match dictGetItem data ("url") with
          | some v => v
          | none => .jstr "<no URL data>")]
      else
        .ok [.loggedUnknownCommand command]

/-- One incoming websocket message as classified by the dispatch on
`message.type` (lines 193-204). -/
inductive WsMsg where
  | text (m : ClientMsg) : WsMsg
  | wsError : WsMsg
  | wsClose : WsMsg
  | unknownKind : WsMsg

/-- The responses (`hello` acks) among a handler run's effects. -/
def sentResponses (effects : List HandlerEffect) : List HelloResponse :=
  effects.filterMap fun e =>
    match e with
    | .sentHello ack => some ack
    | _ => none

/-- Outcome of `_get_livereload_socket` for one connection: the final
registry, whether the websocket was closed, the responses sent to it, and
whether an exception propagated out of the handler (re-raised after the
`finally` block). -/
structure LoopOutcome where
  registry : Finset Nat
  wsClosed : Bool
  sentHellos : List HelloResponse
  raised : Bool

/-- The `async for message in ws:` loop of `_get_livereload_socket`
(lines 193-204): TEXT messages go to the handler (an uncaught handler
exception aborts the loop and propagates); ERROR and CLOSE messages call
the unguarded `remove` (which raises when `ws` is absent) and then close
the websocket, ending the iteration; other message kinds are logged and
skipped. -/
def socketLoopAux (ws : Nat) :
    List WsMsg → Finset Nat → Bool → List HelloResponse → LoopOutcome
  | [], reg, closed, sent => ⟨reg, closed, sent, false⟩
  | msg :: rest, reg, closed, sent =>
    match msg with
    | .text m =>
      match onWebsocketClientMessage m with
      | .ok effects =>
        socketLoopAux ws rest reg closed (sent ++ sentResponses effects)
      | .error _ => ⟨reg, closed, sent, true⟩
    | .wsError =>
      match weakSetRemove reg ws with
      | .ok reg2 => ⟨reg2, true, sent, false⟩
      | .error _ => ⟨reg, closed, sent, true⟩
    | .wsClose =>
      match weakSetRemove reg ws with
      | .ok reg2 => ⟨reg2, true, sent, false⟩
      | .error _ => ⟨reg, closed, sent, true⟩
    | .unknownKind => socketLoopAux ws rest reg closed sent

/-- `_get_livereload_socket` (lines 183-211): add `ws` to the registry
(line 190), run the message loop, then the `finally` block (lines
205-209): remove `ws` if still present and close the websocket if not
yet closed; an exception from the loop is re-raised after the block. -/
def getLivereloadSocket (ws : Nat) (msgs : List WsMsg) (reg0 : Finset Nat) :
    LoopOutcome :=
  let r := socketLoopAux ws msgs (insert ws reg0) false []
  ⟨finallyRemoveIfPresent r.registry ws,
    if r.wsClosed then r.wsClosed else true,
    r.sentHellos, r.raised⟩

/-- C7: a text message whose payload fails to decode as JSON is logged and
discarded by `_on_websocket_client_message` — the handler returns normally
having sent nothing — and processing it in the connection loop leaves the
registry, the closed flag and the sent responses exactly as if the message
had never arrived; in particular the connection is not closed for this
message alone. -/
theorem c7_malformed_message_discarded (raw : String) (ws : Nat)
    (rest : List WsMsg) (reg : Finset Nat) (closed : Bool)
    (sent : List HelloResponse) :
    onWebsocketClientMessage (.nonJsonPayload raw) = .ok [.loggedNonJson raw] ∧
    sentResponses [.loggedNonJson raw] = [] ∧
    socketLoopAux ws (.text (.nonJsonPayload raw) :: rest) reg closed sent =
      socketLoopAux ws rest reg closed sent := by
  refine ⟨rfl, rfl, ?_⟩
  simp [socketLoopAux, onWebsocketClientMessage, sentResponses]

/-- A decodable message whose JSON value is an object without a
`"command"` key. -/
def noCommandMsg : ClientMsg := .jsonPayload (.jobj [])

/-- A decodable message whose JSON value is not an object at all. -/
def nonObjectMsg : ClientMsg := .jsonPayload (.jstr "hello")

/-- C8: a valid-JSON message that is an object without a `"command"` key
(and likewise one that is not an object) makes `data["command"]` raise an
uncaught exception in the handler; for a freshly registered connection
receiving such a message, the loop terminates through its `finally`
block: the client ends up removed from the registry, the channel closed,
and the exception propagates — the message is not merely logged and
ignored. -/
theorem c8_missing_command_key_closes_connection :
    onWebsocketClientMessage noCommandMsg = .error () ∧
    onWebsocketClientMessage nonObjectMsg = .error () ∧
    (getLivereloadSocket 0 [.text noCommandMsg] ∅).raised = true ∧
    (getLivereloadSocket 0 [.text noCommandMsg] ∅).wsClosed = true ∧
    0 ∉ (getLivereloadSocket 0 [.text noCommandMsg] ∅).registry ∧
    (getLivereloadSocket 0 [.text noCommandMsg] ∅).registry = ∅ := by
  refine ⟨rfl, rfl, rfl, rfl, ?_, ?_⟩
  · decide
  · decide

/-- C9: any decodable message whose `"command"` entry is the string
`"hello"` makes the handler send exactly one response: the `hello`
acknowledgement, whose protocol list is exactly the one supported
protocol identifier and whose server name is the non-empty string
`python-livereload_server`. -/
theorem c9_hello_acknowledged (fields : List (String × Json))
    (h : dictLookup fields "command" = some (.jstr "hello")) :
    onWebsocketClientMessage (.jsonPayload (.jobj fields)) =
      .ok [.sentHello helloResponse] ∧
    helloResponse.protocols = [SUPPORTED_PROTOCOL] ∧
    helloResponse.protocols.length = 1 ∧
    helloResponse.serverName = "python-livereload_server" ∧
    helloResponse.serverName ≠ "" := by
  refine ⟨?_, rfl, rfl, rfl, by decide⟩
  simp [onWebsocketClientMessage, dictGetItem, h, jsonEqStr]

/-- C9, witness: the theorem applied to the message
`{"command": "hello"}`. -/
theorem c9_hello_acknowledged_witness :
    dictLookup [("command", Json.jstr "hello")] "command" =
      some (.jstr "hello") ∧
    onWebsocketClientMessage
        (.jsonPayload (.jobj [("command", Json.jstr "hello")])) =
      .ok [.sentHello helloResponse] :=
  ⟨rfl, (c9_hello_acknowledged [("command", Json.jstr "hello")] rfl).1⟩

/-- An abstract filesystem, exposing the two predicates `_get_static_file`
consults: `Path.is_dir` and `Path.is_file`. -/
structure FileSystem where
  isDir : String → Bool
  isFile : String → Bool

/-- Python `request.path[1:]`: the request path without its first
character. -/
def requestPathRest (p : String) : String :=
  ⟨p.toList.drop 1⟩

/-- `pathlib`'s `/` operator for the cases the handler exercises: joining
an empty segment yields the base path, an absolute right operand replaces
the base, and otherwise the segment is appended after a separator. -/
def pathJoin (base rest : String) : String :=
  if rest = "" then base
  else if rest.toList.head? = some '/' then rest
  else base ++ "/" ++ rest

/-- The resolution of `destination_file` (lines 103-106):
`self._path_to_serve / request.path[1:]`, then the `index.html` fallback
when the target is a directory containing an `index.html` file. -/
def resolveDestination (fs : FileSystem) (root reqPath : String) : String :=
  let dest := pathJoin root (requestPathRest reqPath)
  if fs.isDir dest && fs.isFile (pathJoin dest ("index.html")) then
    pathJoin dest ("index.html")
  else dest

/-- Result of `_get_static_file`: either the 404 response with its
plain-text body, or the resolved file handed to
`_stream_file_with_replacement`. -/
inductive StaticResponse where
  | notFound (body : String) : StaticResponse
  | streamed (destinationFile : String) : StaticResponse
deriving DecidableEq

/-- `_get_static_file` (lines 97-114): resolve the destination; when it is
not a file, return the 404 response with body
`f"Not found! {request.path} (file: {destination_file})"` (lines
108-112) — built before any streaming — otherwise stream the file. -/
def getStaticFile (fs : FileSystem) (root reqPath : String) : StaticResponse :=
  let dest := resolveDestination fs root reqPath
  if !fs.isFile dest then
    .notFound ("Not found! " ++ reqPath ++ " (file: " ++ dest ++ ")")
  else
    .streamed dest

/-- C10: whenever the resolved destination (after the directory
`index.html` fallback) is not an existing file, the handler returns the
404 response — never the streaming result — and its plain-text body names
both the requested path and the resolved filesystem target. -/
theorem c10_not_found_names_path_and_target (fs : FileSystem)
    (root reqPath : String)
    (h : fs.isFile (resolveDestination fs root reqPath) = false) :
    getStaticFile fs root reqPath =
      .notFound ("Not found! " ++ reqPath ++ " (file: " ++
        resolveDestination fs root reqPath ++ ")") ∧
    (∃ before betw after : String,
      "Not found! " ++ reqPath ++ " (file: " ++
          resolveDestination fs root reqPath ++ ")" =
        before ++ reqPath ++ betw ++
          resolveDestination fs root reqPath ++ after) ∧
    ∀ p, getStaticFile fs root reqPath ≠ .streamed p := by
  refine ⟨?_, ⟨"Not found! ", " (file: ", ")", rfl⟩, ?_⟩
  · simp [getStaticFile, h]
  · intro p
    simp [getStaticFile, h]

/-- A filesystem with no directories and no files. -/
def emptyFs : FileSystem := ⟨fun _ => false, fun _ => false⟩

/-- C10, witness: requesting `/missing.txt` with serving root `/srv` over
the empty filesystem yields the 404 response whose body names both the
requested path and the resolved target. -/
theorem c10_not_found_names_path_and_target_witness :
    emptyFs.isFile (resolveDestination emptyFs "/srv" "/missing.txt") =
      false ∧
    getStaticFile emptyFs "/srv" "/missing.txt" =
      .notFound "Not found! /missing.txt (file: /srv/missing.txt)" :=
  ⟨rfl,
    ((c10_not_found_names_path_and_target emptyFs "/srv" "/missing.txt"
      rfl).1).trans (by decide)⟩

end Livereload
